import Mathlib

/-!
Shallow embedding of `cli/azd/pkg/project/service_target_aks.go` (the AKS
service target of azure-dev): the Kubernetes resource snapshots it reads,
the readiness predicates passed to `WaitForResource`, the endpoint
construction of `getServiceEndpoints` / `getIngressEndpoints`, the
error-tolerance logic of `Endpoints`, the endpoint-persistence step of
`Deploy`, and the cluster-context bootstrap of `ensureClusterContext` /
`setK8sContext`.

Go slices become Lean lists; Go `int` becomes `Int`; a Go `*string` becomes
`Option String`; a Go out-of-range slice index (a panic) makes the embedded
function return `none`; calls into external collaborators (kubectl, the
managed-clusters service) are modelled by passing their outcomes in as
arguments and recording the calls in an action trace.
-/

/-- Constant of the kubectl package: the `Spec.Type` value of a
load-balancer Service. -/
def ServiceTypeLoadBalancer : String := "LoadBalancer"

/-- Constant of the kubectl package: the `Spec.Type` value of a
cluster-IP Service. -/
def ServiceTypeClusterIp : String := "ClusterIP"

/-- One entry of `Status.LoadBalancer.Ingress` on a Service or Ingress:
a cluster-assigned address record. -/
structure LoadBalancerIngress where
  Ip : String
  deriving Repr, DecidableEq

/-- The `Status.LoadBalancer` object: the list of assigned ingress
address records. -/
structure LoadBalancerStatus where
  Ingress : List LoadBalancerIngress
  deriving Repr, DecidableEq

/-- One entry of a Service's `Spec.Ports` (the only field the AKS target
reads is `Port`). -/
structure ServicePort where
  Port : Int
  deriving Repr, DecidableEq

/-- The fields of a Service's `Spec` read by the AKS target. Go calls the
type field `Type`; that name is reserved in Lean, hence `Type'`. -/
structure ServiceSpec where
  Type' : String
  ClusterIps : List String
  Ports : List ServicePort
  deriving Repr, DecidableEq

/-- A Service's `Status`. -/
structure ServiceStatus where
  LoadBalancer : LoadBalancerStatus
  deriving Repr, DecidableEq

/-- A read-only Service snapshot. -/
structure Service where
  Spec : ServiceSpec
  Status : ServiceStatus
  deriving Repr, DecidableEq

/-- One entry of an Ingress's `Spec.Rules`; `Host` is a Go `*string`,
so `none` models a nil host pointer. -/
structure IngressRule where
  Host : Option String
  deriving Repr, DecidableEq

/-- One entry of an Ingress's `Spec.Tls`; the AKS target only ever asks
for the length of the TLS list. -/
structure IngressTls where
  SecretName : String
  deriving Repr, DecidableEq

/-- The fields of an Ingress's `Spec` read by the AKS target. -/
structure IngressSpec where
  Tls : List IngressTls
  Rules : List IngressRule
  deriving Repr, DecidableEq

/-- An Ingress's `Status`. -/
structure IngressStatus where
  LoadBalancer : LoadBalancerStatus
  deriving Repr, DecidableEq

/-- A read-only Ingress snapshot. -/
structure Ingress where
  Spec : IngressSpec
  Status : IngressStatus
  deriving Repr, DecidableEq

/-- A Deployment's `Spec` (desired replica count). -/
structure DeploymentSpec where
  Replicas : Int
  deriving Repr, DecidableEq

/-- A Deployment's `Status` (observed available replica count). -/
structure DeploymentStatus where
  AvailableReplicas : Int
  deriving Repr, DecidableEq

/-- A read-only Deployment snapshot. -/
structure Deployment where
  Spec : DeploymentSpec
  Status : DeploymentStatus
  deriving Repr, DecidableEq

/-- The AKS ingress options (`AksIngressOptions` in the source). -/
structure AksIngressOptions where
  Name : String
  RelativePath : String
  deriving Repr, DecidableEq

/-- The AKS deployment options (`AksDeploymentOptions` in the source). -/
structure AksDeploymentOptions where
  Name : String
  deriving Repr, DecidableEq

/-- The AKS service options (`AksServiceOptions` in the source). -/
structure AksServiceOptions where
  Name : String
  deriving Repr, DecidableEq

/-- The AKS configuration options (`AksOptions` in the source). -/
structure AksOptions where
  Namespace : String
  DeploymentPath : String
  Ingress : AksIngressOptions
  Deployment : AksDeploymentOptions
  Service : AksServiceOptions
  deriving Repr, DecidableEq

/-- The slice of a `ServiceConfig` the AKS target reads for endpoint
resolution: the service name and the `k8s` options block. -/
structure ServiceConfig where
  Name : String
  K8s : AksOptions
  deriving Repr, DecidableEq

/-- The ready predicate `waitForDeployment` passes to `WaitForResource`:
`deployment.Status.AvailableReplicas == deployment.Spec.Replicas`. -/
def deploymentReady (deployment : Deployment) : Bool :=
  deployment.Status.AvailableReplicas == deployment.Spec.Replicas

/-- The ready predicate `waitForService` passes to `WaitForResource`: a
non-load-balancer Service is immediately ready; a load-balancer Service is
ready once some `Status.LoadBalancer.Ingress` entry has a non-empty IP
(the Go loop takes the first non-empty IP and tests it against `""`). -/
def serviceReady (service : Service) : Bool :=
  if service.Spec.Type' != ServiceTypeLoadBalancer then
    true
  else
    service.Status.LoadBalancer.Ingress.any (fun config => config.Ip != "")

/-- The ready predicate `waitForIngress` passes to `WaitForResource`:
some `Status.LoadBalancer.Ingress` entry has a non-empty IP. -/
def ingressReady (ingress : Ingress) : Bool :=
  ingress.Status.LoadBalancer.Ingress.any (fun config => config.Ip != "")

/-- The `ClusterIP` loop body of `getServiceEndpoints`: for each index into
`Spec.ClusterIps` it formats `Spec.Ports[index].Port` alongside the cluster
IP. The lockstep recursion mirrors the positional indexing; running out of
ports while cluster IPs remain is a Go out-of-range panic, modelled as
`none`. -/
def clusterIpEndpoints : List String → List ServicePort → Option (List String)
  | [], _ => some []
  | _ :: _, [] => none
  | ip :: ips, port :: ports =>
    (clusterIpEndpoints ips ports).map
      (fun rest =>
        ("http://" ++ ip ++ ":" ++ toString port.Port ++ ", (Service, Type: ClusterIP)") :: rest)

/-- The endpoint construction of `getServiceEndpoints` applied to the
Service snapshot returned ready by `waitForService`: one
`http://<ip>` endpoint per `Status.LoadBalancer.Ingress` entry for a
load-balancer Service, one `http://<clusterIP>:<port>` endpoint per
cluster IP for a cluster-IP Service, and no endpoints otherwise. -/
def getServiceEndpoints (service : Service) : Option (List String) :=
  if service.Spec.Type' == ServiceTypeLoadBalancer then
    some (service.Status.LoadBalancer.Ingress.map
      (fun resource => "http://" ++ resource.Ip ++ ", (Service, Type: LoadBalancer)"))
  else if service.Spec.Type' == ServiceTypeClusterIp then
    clusterIpEndpoints service.Spec.ClusterIps service.Spec.Ports
  else
    some []

/-- Splits a character list on `/`, keeping empty segments, as Go's
`strings.Split(s, "/")` does. -/
def splitSlash : List Char → List (List Char)
  | [] => [[]]
  | c :: rest =>
    if c = '/' then [] :: splitSlash rest
    else
      match splitSlash rest with
      | [] => [[c]]
      | seg :: segs => (c :: seg) :: segs

/-- The segment stack of Go's `path.Clean`: empty and `.` segments are
dropped, `..` pops a previous segment when one is available, leading `..`
segments are kept on a relative path and dropped on a rooted one. The
accumulator holds the kept segments in reverse. -/
def cleanSegs (rooted : Bool) : List (List Char) → List (List Char) → List (List Char)
  | acc, [] => acc.reverse
  | acc, seg :: segs =>
    if seg = [] ∨ seg = ['.'] then
      cleanSegs rooted acc segs
    else if seg = ['.', '.'] then
      match acc with
      | top :: acc' =>
        if top = ['.', '.'] then cleanSegs rooted (seg :: acc) segs
        else cleanSegs rooted acc' segs
      | [] =>
        if rooted then cleanSegs rooted [] segs
        else cleanSegs rooted [seg] segs
    else
      cleanSegs rooted (seg :: acc) segs

/-- Joins path segments back with `/` separators. -/
def joinSegs : List (List Char) → List Char
  | [] => []
  | [seg] => seg
  | seg :: segs => seg ++ '/' :: joinSegs segs

/-- Go's `path.Clean` on a character list: lexical simplification of a
slash-separated path (drop empty and `.` segments, resolve `..`, keep a
root slash, return `.` for an empty result). -/
def pathClean (p : List Char) : List Char :=
  if p = [] then ['.']
  else
    let rooted := p.head? = some '/'
    let segs := cleanSegs rooted [] (splitSlash p)
    if segs = [] then
      if rooted then ['/'] else ['.']
    else
      if rooted then '/' :: joinSegs segs else joinSegs segs

/-- One step of the buffer loop in Go's `path.Join`: elements are
concatenated with `/` separators, skipping elements while the buffer is
still empty and the element is empty. -/
def joinBuf : List Char → List (List Char) → List Char
  | buf, [] => buf
  | buf, e :: rest =>
    if buf = [] then
      if e = [] then joinBuf buf rest else joinBuf e rest
    else
      joinBuf (buf ++ '/' :: e) rest

/-- Go's `path.Join` on character lists: concatenate the elements with `/`
and clean the result; all-empty input yields the empty path without
cleaning. -/
def pathJoin (elems : List (List Char)) : List Char :=
  let buf := joinBuf [] elems
  if buf = [] then [] else pathClean buf

/-- Finds the first `://` in a character list, returning the part before it
(the scheme) and the part after it. Models the scheme/authority split of
Go's `url.Parse` for the absolute `scheme://host[/path]` URLs that
`getIngressEndpoints` constructs (`http` or `https` scheme, no user info,
no query or fragment, no characters needing percent-escaping). -/
def findSchemeSplit : List Char → Option (List Char × List Char)
  | [] => none
  | c :: rest =>
    if c = ':' ∧ rest.take 2 = ['/', '/'] then
      some ([], rest.drop 2)
    else
      (findSchemeSplit rest).map (fun p => (c :: p.1, p.2))

/-- The path-combination step of Go's `URL.JoinPath` with a single extra
element: prepend the base URL's escaped path, `path.Join` the pieces
(prefixing a `/` and stripping it again when the base path is relative),
and restore a trailing slash when the last element ended in one. -/
def urlJoinCombine (basePath elem : List Char) : List Char :=
  let p :=
    if basePath.head? = some '/' then pathJoin [basePath, elem]
    else (pathJoin ['/' :: basePath, elem]).drop 1
  if elem.getLast? = some '/' ∧ p.getLast? ≠ some '/' then p ++ ['/']
  else p

/-- Go's `url.JoinPath base elem` on character lists, for the URL shapes
produced by `getIngressEndpoints` (see `findSchemeSplit`): split off
`scheme://`, split the remainder into host and path at the first `/`,
combine the paths, and reassemble as `URL.String` does — the `//` is
written only when host or combined path is non-empty (so
`JoinPath("http://", "")` is `http:`), and the `/` between host and a
relative combined path is inserted only when the host is non-empty. A
base without `://` is treated as a scheme-less path-only URL, as
`url.Parse` would. Percent-escaping is not modelled (none of the claims'
inputs need it). -/
def urlJoinPathL (base elem : List Char) : List Char :=
  match findSchemeSplit base with
  | some (scheme, rest) =>
    let host := rest.takeWhile (fun c => c ≠ '/')
    let basePath := rest.dropWhile (fun c => c ≠ '/')
    let p := urlJoinCombine basePath elem
    scheme ++ ':' ::
      ((if host = [] ∧ p = [] then [] else '/' :: '/' :: host) ++
        (if p ≠ [] ∧ p.head? ≠ some '/' ∧ host ≠ [] then '/' :: p else p))
  | none => urlJoinCombine base elem

/-- Go's `url.JoinPath` on strings (error-free model: on the base URLs the
AKS target constructs, `url.Parse` cannot fail). -/
def urlJoinPath (base elem : String) : String :=
  String.mk (urlJoinPathL base.toList elem.toList)

/-- The protocol decision of `getIngressEndpoints`: `http` when
`Spec.Tls` is empty, `https` otherwise. -/
def ingressProtocol (ingress : Ingress) : String :=
  if ingress.Spec.Tls.length == 0 then "http" else "https"

/-- The loop body of `getIngressEndpoints`: for each index into
`Status.LoadBalancer.Ingress` it reads `Spec.Rules[index]`, builds the base
URL from the rule's host when present and from the status entry's IP when
the host pointer is nil, and joins the configured relative path. The
lockstep recursion mirrors the positional indexing; running out of rules
while status entries remain is a Go out-of-range panic, modelled as
`none`. -/
def ingressEndpointsLoop (protocol relativePath : String) :
    List LoadBalancerIngress → List IngressRule → Option (List String)
  | [], _ => some []
  | _ :: _, [] => none
  | resource :: resources, rule :: rules =>
    let baseUrl :=
      match rule.Host with
      | none => protocol ++ "://" ++ resource.Ip
      | some host => protocol ++ "://" ++ host
    (ingressEndpointsLoop protocol relativePath resources rules).map
      (fun rest =>
        (urlJoinPath baseUrl relativePath ++ ", (Ingress, Type: LoadBalancer)") :: rest)

/-- The endpoint construction of `getIngressEndpoints` applied to the
Ingress snapshot returned ready by `waitForIngress`: one protocol decision
for the whole ingress, then one path-joined endpoint per
`Status.LoadBalancer.Ingress` entry. -/
def getIngressEndpoints (serviceConfig : ServiceConfig) (ingress : Ingress) :
    Option (List String) :=
  ingressEndpointsLoop (ingressProtocol ingress) serviceConfig.K8s.Ingress.RelativePath
    ingress.Status.LoadBalancer.Ingress ingress.Spec.Rules

/-- An error returned by a resolution branch: kubectl's distinguished
`ErrResourceNotFound`, or any other failure. -/
inductive KubeError where
  | resourceNotFound
  | other (msg : String)
  deriving Repr, DecidableEq

/-- The service name filter computed by `Endpoints`:
`serviceConfig.K8s.Service.Name`, falling back to `serviceConfig.Name`
when empty. -/
def endpointsServiceName (serviceConfig : ServiceConfig) : String :=
  if serviceConfig.K8s.Service.Name == "" then serviceConfig.Name
  else serviceConfig.K8s.Service.Name

/-- The ingress name filter computed by `Endpoints`: the source reads
`serviceConfig.K8s.Service.Name` (not `K8s.Ingress.Name`), falling back to
`serviceConfig.Name` when empty. -/
def endpointsIngressName (serviceConfig : ServiceConfig) : String :=
  if serviceConfig.K8s.Service.Name == "" then serviceConfig.Name
  else serviceConfig.K8s.Service.Name

/-- The error-tolerance logic of `Endpoints`, given the outcomes of the
service branch (`getServiceEndpoints`) and the ingress branch
(`getIngressEndpoints`): a `ResourceNotFound` failure leaves that branch's
endpoint slice nil and resolution continues; any other failure aborts with
a wrapped error; the result appends ingress endpoints after service
endpoints. -/
def endpointsResolve (serviceResult ingressResult : Except KubeError (List String)) :
    Except String (List String) :=
  match serviceResult with
  | .error (.other msg) => .error ("failed retrieving service endpoints, " ++ msg)
  | _ =>
    let serviceEndpoints :=
      match serviceResult with
      | .ok endpoints => endpoints
      | .error _ => []
    match ingressResult with
    | .error (.other msg) => .error ("failed retrieving ingress endpoints, " ++ msg)
    | _ =>
      let ingressEndpoints :=
        match ingressResult with
        | .ok endpoints => endpoints
        | .error _ => []
      .ok (serviceEndpoints ++ ingressEndpoints)

/-- An operation against the environment store, as invoked by `Deploy`. -/
inductive EnvOp where
  | setServiceProperty (serviceName key value : String)
  | save
  deriving Repr, DecidableEq

/-- Models `strings.Split(s, ",")[0]`: the longest prefix of `s` before
the first comma (the whole string when there is none). -/
def beforeFirstComma (s : String) : String :=
  String.mk (s.toList.takeWhile (fun c => c ≠ ','))

/-- The endpoint-persistence step of `Deploy`: when at least one endpoint
was produced, store the last endpoint's text before its first comma as the
`ENDPOINT_URL` service property and save the environment; otherwise touch
the environment store not at all. -/
def deployPersistEndpoints (serviceName : String) (endpoints : List String) : List EnvOp :=
  match endpoints.getLast? with
  | some lastEndpoint =>
    [EnvOp.setServiceProperty serviceName "ENDPOINT_URL" (beforeFirstComma lastEndpoint),
     EnvOp.save]
  | none => []

/-- The environment store's visible state: the recorded service properties
and how many times the environment was saved. -/
structure EnvState where
  props : List (String × String × String)
  savedCount : Nat
  deriving Repr, DecidableEq

/-- Applies one environment-store operation. -/
def applyEnvOp (state : EnvState) : EnvOp → EnvState
  | .setServiceProperty serviceName key value =>
    { state with props := (serviceName, key, value) :: state.props }
  | .save => { state with savedCount := state.savedCount + 1 }

/-- Applies a trace of environment-store operations in order. -/
def applyEnvOps (state : EnvState) (ops : List EnvOp) : EnvState :=
  ops.foldl applyEnvOp state

/-- The environment values `ensureClusterContext` reads: the value of the
`KUBECONFIG` override variable (`env.Getenv`, empty when unset) and the
looked-up AKS cluster name provisioning output (`env.LookupEnv`). -/
structure BootstrapEnv where
  kubeConfigEnv : String
  aksClusterEnv : Option String
  deriving Repr, DecidableEq

/-- Outcomes of the external collaborator calls `ensureClusterContext` can
make: the managed-clusters credential fetch (a list of kubeconfig blobs on
success) and the `configureK8sContext` parse/merge/use-context sequence (a
kubeconfig path on success). -/
structure ClusterOracle where
  userCredentials : Except String (List String)
  configureResult : Except String String
  deriving Repr

/-- A collaborator call recorded while bootstrapping the cluster context. -/
inductive BootstrapAction where
  | fetchCredentials (clusterName : String)
  | configureContext (clusterName : String)
  | ensureNamespace (namespaceName : String)
  deriving Repr, DecidableEq

/-- The error `ensureClusterContext` returns when no `KUBECONFIG` override
is set and the cluster-name provisioning output is absent. -/
def missingClusterNameError : String :=
  "could not determine AKS cluster, ensure AZURE_AKS_CLUSTER_NAME is set " ++
    "as an output of your infrastructure"

/-- `ensureClusterContext`: return the `KUBECONFIG` override path
immediately when it is non-empty; otherwise require the cluster-name
provisioning output, fetch cluster credentials, fail on an empty
credential list, and hand the first kubeconfig blob to
`configureK8sContext`. Returns the resulting kubeconfig path together with
the trace of collaborator calls made. -/
def ensureClusterContext (env : BootstrapEnv) (oracle : ClusterOracle) :
    Except String String × List BootstrapAction :=
  if env.kubeConfigEnv != "" then
    (.ok env.kubeConfigEnv, [])
  else
    match env.aksClusterEnv with
    | none => (.error missingClusterNameError, [])
    | some clusterName =>
      match oracle.userCredentials with
      | .error msg =>
        (.error ("failed retrieving cluster admin credentials. Ensure your cluster " ++
          "has been configured to support admin credentials, " ++ msg),
         [BootstrapAction.fetchCredentials clusterName])
      | .ok kubeconfigs =>
        if kubeconfigs.length == 0 then
          (.error ("cluster credentials is empty. Ensure your cluster has been " ++
            "configured to support admin credentials."),
           [BootstrapAction.fetchCredentials clusterName])
        else
          match oracle.configureResult with
          | .error msg =>
            (.error msg,
             [BootstrapAction.fetchCredentials clusterName,
              BootstrapAction.configureContext clusterName])
          | .ok kubeConfigPath =>
            (.ok kubeConfigPath,
             [BootstrapAction.fetchCredentials clusterName,
              BootstrapAction.configureContext clusterName])

/-- `setK8sContext`: resolve the target resource, run
`ensureClusterContext`, then run `ensureNamespace` on the resolved default
namespace. The outcomes of `GetTargetResource` and `ensureNamespace` are
passed in; the returned trace records the collaborator calls made, with
the namespace-ensure step recorded whenever it runs (also when it
fails). -/
def setK8sContext (env : BootstrapEnv) (oracle : ClusterOracle)
    (defaultNamespace : String) (targetResource : Except String Unit)
    (namespaceResult : Except String Unit) :
    Except String Unit × List BootstrapAction :=
  match targetResource with
  | .error msg => (.error msg, [])
  | .ok _ =>
    match ensureClusterContext env oracle with
    | (.error msg, actions) => (.error msg, actions)
    | (.ok _, actions) =>
      match namespaceResult with
      | .error msg =>
        (.error msg, actions ++ [BootstrapAction.ensureNamespace defaultNamespace])
      | .ok _ =>
        (.ok (), actions ++ [BootstrapAction.ensureNamespace defaultNamespace])

/-- The authority-and-path tail that `urlJoinPathL` produces after the
`scheme:` prefix (the `//` is part of this tail, since `URL.String` omits
it when host and combined path are both empty). -/
def urlTail (hs rel : List Char) : List Char :=
  let host := hs.takeWhile (fun c => c ≠ '/')
  let basePath := hs.dropWhile (fun c => c ≠ '/')
  let p := urlJoinCombine basePath rel
  (if host = [] ∧ p = [] then [] else '/' :: '/' :: host) ++
    (if p ≠ [] ∧ p.head? ≠ some '/' ∧ host ≠ [] then '/' :: p else p)

/-- A ready load-balancer Service whose status carries one empty-IP entry
next to a non-empty one. -/
def svcMixedIps : Service :=
  { Spec := { Type' := "LoadBalancer", ClusterIps := [], Ports := [] },
    Status := { LoadBalancer := { Ingress := [{ Ip := "" }, { Ip := "1.2.3.4" }] } } }

/-- The spec's cluster-IP scenario: one cluster IP `10.0.0.5` paired with
one port `8080`. -/
def svcClusterScenario : Service :=
  { Spec := { Type' := "ClusterIP", ClusterIps := ["10.0.0.5"], Ports := [{ Port := 8080 }] },
    Status := { LoadBalancer := { Ingress := [] } } }

/-- A cluster-IP Service with more cluster IPs than ports: reading
`Spec.Ports[0]` is out of range. -/
def svcPortsShort : Service :=
  { Spec := { Type' := "ClusterIP", ClusterIps := ["10.0.0.5"], Ports := [] },
    Status := { LoadBalancer := { Ingress := [] } } }

/-- A service configuration whose ingress relative path is `/app`. -/
def cfgApp : ServiceConfig :=
  { Name := "web",
    K8s := { Namespace := "", DeploymentPath := "",
             Ingress := { Name := "", RelativePath := "/app" },
             Deployment := { Name := "" },
             Service := { Name := "" } } }

/-- A service configuration with an empty ingress relative path. -/
def cfgNoPath : ServiceConfig :=
  { Name := "web",
    K8s := { Namespace := "", DeploymentPath := "",
             Ingress := { Name := "", RelativePath := "" },
             Deployment := { Name := "" },
             Service := { Name := "" } } }

/-- The spec's ingress scenario: no TLS, one rule with host `example.com`,
one load-balancer IP `1.2.3.4`. -/
def ingScenario : Ingress :=
  { Spec := { Tls := [], Rules := [{ Host := some "example.com" }] },
    Status := { LoadBalancer := { Ingress := [{ Ip := "1.2.3.4" }] } } }

/-- An ingress with a non-empty TLS list. -/
def ingWithTls : Ingress :=
  { Spec := { Tls := [{ SecretName := "tls-secret" }],
              Rules := [{ Host := some "secure.example" }] },
    Status := { LoadBalancer := { Ingress := [{ Ip := "5.6.7.8" }] } } }

/-- An ingress with more load-balancer status entries than rules: reading
`Spec.Rules[0]` is out of range. -/
def ingRulesShort : Ingress :=
  { Spec := { Tls := [], Rules := [] },
    Status := { LoadBalancer := { Ingress := [{ Ip := "1.2.3.4" }] } } }

/-- A ready ingress (its second status entry has a non-empty IP) with no
TLS, nil-host rules, and an empty-IP first status entry: at index 0 the
program builds the base URL `http://` and, with an empty relative path,
`url.JoinPath` renders it `http:`. -/
def ingEmptyIpEntry : Ingress :=
  { Spec := { Tls := [], Rules := [{ Host := none }, { Host := none }] },
    Status := { LoadBalancer := { Ingress := [{ Ip := "" }, { Ip := "9.9.9.9" }] } } }

/-- An empty environment-store state. -/
def envState0 : EnvState := { props := [], savedCount := 0 }

/-- A bootstrap environment with the `KUBECONFIG` override set and no
cluster-name provisioning output. -/
def bootstrapEnvOverride : BootstrapEnv :=
  { kubeConfigEnv := "/custom/kubeconfig", aksClusterEnv := none }

/-- A bootstrap environment with neither the `KUBECONFIG` override nor the
cluster-name provisioning output. -/
def bootstrapEnvMissing : BootstrapEnv :=
  { kubeConfigEnv := "", aksClusterEnv := none }

/-- A cluster oracle whose collaborator calls all succeed. -/
def oracleHappy : ClusterOracle :=
  { userCredentials := .ok ["kubeconfig-blob"],
    configureResult := .ok "/home/user/.kube/config" }

theorem urlJoinPathL_http (hs rel : List Char) :
    urlJoinPathL ('h' :: 't' :: 't' :: 'p' :: ':' :: '/' :: '/' :: hs) rel =
      'h' :: 't' :: 't' :: 'p' :: ':' :: urlTail hs rel := rfl

theorem urlJoinPathL_https (hs rel : List Char) :
    urlJoinPathL ('h' :: 't' :: 't' :: 'p' :: 's' :: ':' :: '/' :: '/' :: hs) rel =
      'h' :: 't' :: 't' :: 'p' :: 's' :: ':' :: urlTail hs rel := rfl

theorem urlJoinPath_http (host rel : String) :
    urlJoinPath ("http" ++ "://" ++ host) rel =
      "http" ++ ":" ++ String.mk (urlTail host.toList rel.toList) := by
  cases host with
  | mk data => rfl

theorem urlJoinPath_https (host rel : String) :
    urlJoinPath ("https" ++ "://" ++ host) rel =
      "https" ++ ":" ++ String.mk (urlTail host.toList rel.toList) := by
  cases host with
  | mk data => rfl

theorem strAppend_assoc (a b c : String) : (a ++ b) ++ c = a ++ (b ++ c) := by
  cases a with
  | mk d1 =>
    cases b with
    | mk d2 =>
      cases c with
      | mk d3 => exact congrArg String.mk (List.append_assoc d1 d2 d3)

theorem clusterIpEndpoints_of_le (ips : List String) (ports : List ServicePort)
    (h : ips.length ≤ ports.length) :
    clusterIpEndpoints ips ports =
      some (List.zipWith
        (fun ip port =>
          "http://" ++ ip ++ ":" ++ toString port.Port ++ ", (Service, Type: ClusterIP)")
        ips ports) := by
  induction ips generalizing ports with
  | nil => simp [clusterIpEndpoints]
  | cons ip ips ih =>
    cases ports with
    | nil => simp at h
    | cons port ports =>
      have h' : ips.length ≤ ports.length := by simpa using h
      simp [clusterIpEndpoints, ih ports h']

theorem ingressEndpointsLoop_of_le (protocol relativePath : String)
    (resources : List LoadBalancerIngress) (rules : List IngressRule)
    (h : resources.length ≤ rules.length) :
    ingressEndpointsLoop protocol relativePath resources rules =
      some (List.zipWith
        (fun (resource : LoadBalancerIngress) (rule : IngressRule) =>
          urlJoinPath (protocol ++ "://" ++ rule.Host.getD resource.Ip) relativePath ++
            ", (Ingress, Type: LoadBalancer)")
        resources rules) := by
  induction resources generalizing rules with
  | nil => simp [ingressEndpointsLoop]
  | cons resource resources ih =>
    cases rules with
    | nil => simp at h
    | cons rule rules =>
      have h' : resources.length ≤ rules.length := by simpa using h
      cases hr : rule.Host with
      | none => simp [ingressEndpointsLoop, ih rules h', hr]
      | some host => simp [ingressEndpointsLoop, ih rules h', hr]

/-- C2: the rollout readiness predicate used by `waitForDeployment` holds
if and only if `Status.AvailableReplicas` equals `Spec.Replicas` exactly;
in particular an over-provisioned deployment with more available replicas
than desired is not ready. -/
theorem C2_deployment_ready_iff_exact_equality (d : Deployment) :
    (deploymentReady d = true ↔ d.Status.AvailableReplicas = d.Spec.Replicas) ∧
    (d.Spec.Replicas < d.Status.AvailableReplicas → deploymentReady d = false) := by
  constructor
  · simp [deploymentReady]
  · intro h
    simp only [deploymentReady, beq_eq_false_iff_ne, ne_eq]
    omega

/-- C2 witness: an over-provisioned snapshot (2 available, 1 desired) is
not rollout-ready, and an exactly settled one (2 of 2) is. -/
theorem C2_deployment_ready_iff_exact_equality_witness :
    deploymentReady { Spec := { Replicas := 1 }, Status := { AvailableReplicas := 2 } } = false ∧
    deploymentReady { Spec := { Replicas := 2 }, Status := { AvailableReplicas := 2 } } = true := by
  constructor
  · exact (C2_deployment_ready_iff_exact_equality
      { Spec := { Replicas := 1 }, Status := { AvailableReplicas := 2 } }).2 (by decide)
  · exact (C2_deployment_ready_iff_exact_equality
      { Spec := { Replicas := 2 }, Status := { AvailableReplicas := 2 } }).1.mpr (by decide)

/-- C10: the ingress name filter computed by `Endpoints` equals the
service name filter (both read `serviceConfig.K8s.Service.Name`, falling
back to `serviceConfig.Name`), and changing the configured
`AksIngressOptions.Name` never changes the ingress filter. -/
theorem C10_ingress_filter_reads_service_name (cfg : ServiceConfig) (n : String) :
    endpointsIngressName cfg = endpointsServiceName cfg ∧
    endpointsIngressName
        { cfg with K8s := { cfg.K8s with Ingress := { cfg.K8s.Ingress with Name := n } } } =
      endpointsIngressName cfg :=
  ⟨rfl, rfl⟩

/-- C6: a `ResourceNotFound` failure of either branch of `Endpoints` is
swallowed and contributes zero endpoints (service endpoints first, then
ingress endpoints), while any other failure of either branch aborts
resolution with a wrapped error. -/
theorem C6_not_found_swallowed_other_errors_abort (svcEps ingEps : List String)
    (msg : String) (ingressResult : Except KubeError (List String)) :
    endpointsResolve (.ok svcEps) (.ok ingEps) = .ok (svcEps ++ ingEps) ∧
    endpointsResolve (.error .resourceNotFound) (.ok ingEps) = .ok ingEps ∧
    endpointsResolve (.ok svcEps) (.error .resourceNotFound) = .ok svcEps ∧
    endpointsResolve (.error .resourceNotFound) (.error .resourceNotFound) = .ok [] ∧
    endpointsResolve (.error (.other msg)) ingressResult =
      .error ("failed retrieving service endpoints, " ++ msg) ∧
    endpointsResolve (.ok svcEps) (.error (.other msg)) =
      .error ("failed retrieving ingress endpoints, " ++ msg) ∧
    endpointsResolve (.error .resourceNotFound) (.error (.other msg)) =
      .error ("failed retrieving ingress endpoints, " ++ msg) := by
  refine ⟨?_, ?_, ?_, ?_, ?_, ?_, ?_⟩ <;> simp [endpointsResolve]

/-- C7: when `Deploy` produced at least one endpoint it stores the last
endpoint's text before the first comma as the `ENDPOINT_URL` service
property and saves the environment; with no endpoints the environment
store is left untouched. -/
theorem C7_persist_last_endpoint_url (serviceName : String) (endpoints : List String)
    (state : EnvState) :
    (endpoints = [] →
      deployPersistEndpoints serviceName endpoints = [] ∧
      applyEnvOps state (deployPersistEndpoints serviceName endpoints) = state) ∧
    (∀ front lastEndpoint, endpoints = front ++ [lastEndpoint] →
      applyEnvOps state (deployPersistEndpoints serviceName endpoints) =
        { props := (serviceName, "ENDPOINT_URL", beforeFirstComma lastEndpoint) :: state.props,
          savedCount := state.savedCount + 1 }) := by
  constructor
  · intro h
    subst h
    exact ⟨rfl, rfl⟩
  · intro front lastEndpoint h
    subst h
    simp [deployPersistEndpoints, List.getLast?_concat, applyEnvOps, applyEnvOp]

/-- C7 witness: with two endpoints, the last one's URL portion is stored
and the environment saved once; with no endpoints, the state is
unchanged. -/
theorem C7_persist_last_endpoint_url_witness :
    applyEnvOps envState0 (deployPersistEndpoints "web"
        ["http://10.0.0.5:8080, (Service, Type: ClusterIP)",
         "http://1.2.3.4, (Ingress, Type: LoadBalancer)"]) =
      { props := [("web", "ENDPOINT_URL", "http://1.2.3.4")], savedCount := 1 } ∧
    applyEnvOps envState0 (deployPersistEndpoints "web" []) = envState0 := by
  constructor
  · have h := (C7_persist_last_endpoint_url "web"
      ["http://10.0.0.5:8080, (Service, Type: ClusterIP)",
       "http://1.2.3.4, (Ingress, Type: LoadBalancer)"] envState0).2
      ["http://10.0.0.5:8080, (Service, Type: ClusterIP)"]
      "http://1.2.3.4, (Ingress, Type: LoadBalancer)" rfl
    rw [h]
    decide
  · exact ((C7_persist_last_endpoint_url "web" [] envState0).1 rfl).2

/-- C8: with a non-empty `KUBECONFIG` override, `ensureClusterContext`
returns the override path with no credential fetch and no context merge
(and without needing the cluster-name output), and `setK8sContext` still
performs exactly the namespace-ensure step; with no override and no
cluster-name provisioning output, the bootstrap fails, and when the
target-resource lookup succeeded the error is the user-actionable
missing-cluster-name message. -/
theorem C8_kubeconfig_override_and_missing_cluster_name
    (env : BootstrapEnv) (oracle : ClusterOracle) (ns : String)
    (nsResult : Except String Unit) :
    (env.kubeConfigEnv ≠ "" →
      ensureClusterContext env oracle = (.ok env.kubeConfigEnv, []) ∧
      (setK8sContext env oracle ns (.ok ()) nsResult).2 =
        [BootstrapAction.ensureNamespace ns]) ∧
    (env.kubeConfigEnv = "" → env.aksClusterEnv = none →
      ∀ targetResource : Except String Unit,
        ∃ msg, (setK8sContext env oracle ns targetResource nsResult).1 = .error msg ∧
          (targetResource = .ok () → msg = missingClusterNameError)) := by
  constructor
  · intro h
    have hb : (env.kubeConfigEnv != "") = true := by simpa using h
    have h1 : ensureClusterContext env oracle = (.ok env.kubeConfigEnv, []) := by
      simp [ensureClusterContext, hb]
    refine ⟨h1, ?_⟩
    cases nsResult <;> simp [setK8sContext, h1]
  · intro h1 h2 targetResource
    have hb : (env.kubeConfigEnv != "") = false := by simp [h1]
    have hctx : ensureClusterContext env oracle = (.error missingClusterNameError, []) := by
      simp [ensureClusterContext, hb, h2]
    cases targetResource with
    | error msg =>
      refine ⟨msg, by simp [setK8sContext], ?_⟩
      intro hc
      cases hc
    | ok u =>
      cases u
      exact ⟨missingClusterNameError, by simp [setK8sContext, hctx], fun _ => rfl⟩

/-- C8 witness: with the override `/custom/kubeconfig` set the context
resolves to it with an empty collaborator trace and the namespace-ensure
step still runs; with no override and no cluster name the bootstrap fails
with the missing-cluster-name error. -/
theorem C8_kubeconfig_override_and_missing_cluster_name_witness :
    ensureClusterContext bootstrapEnvOverride oracleHappy = (.ok "/custom/kubeconfig", []) ∧
    (setK8sContext bootstrapEnvOverride oracleHappy "web" (.ok ()) (.ok ())).2 =
      [BootstrapAction.ensureNamespace "web"] ∧
    (setK8sContext bootstrapEnvMissing oracleHappy "web" (.ok ()) (.ok ())).1 =
      .error missingClusterNameError := by
  have h1 := (C8_kubeconfig_override_and_missing_cluster_name
    bootstrapEnvOverride oracleHappy "web" (.ok ())).1 (by decide)
  have h2 := (C8_kubeconfig_override_and_missing_cluster_name
    bootstrapEnvMissing oracleHappy "web" (.ok ())).2 rfl rfl (.ok ())
  obtain ⟨msg, hmsg, hok⟩ := h2
  exact ⟨h1.1, h1.2, by rw [hmsg, hok rfl]⟩

/-- C3: for a `ClusterIP` Service with at least as many ports as cluster
IPs, `getServiceEndpoints` produces exactly one endpoint per cluster IP,
pairing `ClusterIPs[i]` with `Ports[i]` as
`http://<ip>:<port>, (Service, Type: ClusterIP)`. -/
theorem C3_cluster_ip_positional_pairing (svc : Service)
    (htype : svc.Spec.Type' = ServiceTypeClusterIp)
    (hlen : svc.Spec.ClusterIps.length ≤ svc.Spec.Ports.length) :
    getServiceEndpoints svc =
      some (List.zipWith
        (fun ip port =>
          "http://" ++ ip ++ ":" ++ toString port.Port ++ ", (Service, Type: ClusterIP)")
        svc.Spec.ClusterIps svc.Spec.Ports) ∧
    (getServiceEndpoints svc).map List.length = some svc.Spec.ClusterIps.length := by
  have hne : (svc.Spec.Type' == ServiceTypeLoadBalancer) = false := by
    rw [htype]
    decide
  have heq : (svc.Spec.Type' == ServiceTypeClusterIp) = true := by
    rw [htype]
    decide
  have h1 : getServiceEndpoints svc = clusterIpEndpoints svc.Spec.ClusterIps svc.Spec.Ports := by
    simp [getServiceEndpoints, hne, heq]
  rw [h1, clusterIpEndpoints_of_le _ _ hlen]
  refine ⟨rfl, ?_⟩
  simp [List.length_zipWith]
  omega

/-- C3 witness: the spec scenario `ClusterIPs=["10.0.0.5"]`,
`Ports=[8080]` yields the single endpoint
`http://10.0.0.5:8080, (Service, Type: ClusterIP)`. -/
theorem C3_cluster_ip_positional_pairing_witness :
    getServiceEndpoints svcClusterScenario =
      some ["http://10.0.0.5:8080, (Service, Type: ClusterIP)"] := by
  have h := C3_cluster_ip_positional_pairing svcClusterScenario rfl (by decide)
  rw [h.1]
  decide

/-- C9: the positional index accesses of `getServiceEndpoints`
(`Spec.Ports[i]`) and `getIngressEndpoints` (`Spec.Rules[i]`) are within
bounds for all inputs exactly under the preconditions
`len(Ports) ≥ len(ClusterIPs)` and `len(Rules) ≥ len(Status
ingress entries)`; inputs violating them make the access go out of
bounds. -/
theorem C9_unvalidated_positional_indexing (svc : Service) (cfg : ServiceConfig)
    (ing : Ingress)
    (hsvc : svc.Spec.ClusterIps.length ≤ svc.Spec.Ports.length)
    (hing : ing.Status.LoadBalancer.Ingress.length ≤ ing.Spec.Rules.length) :
    (getServiceEndpoints svc).isSome = true ∧
    (getIngressEndpoints cfg ing).isSome = true ∧
    getServiceEndpoints svcPortsShort = none ∧
    getIngressEndpoints cfgNoPath ingRulesShort = none := by
  refine ⟨?_, ?_, by decide, by decide⟩
  · cases h1 : svc.Spec.Type' == ServiceTypeLoadBalancer with
    | true => simp [getServiceEndpoints, h1]
    | false =>
      cases h2 : svc.Spec.Type' == ServiceTypeClusterIp with
      | true => simp [getServiceEndpoints, h1, h2, clusterIpEndpoints_of_le _ _ hsvc]
      | false => simp [getServiceEndpoints, h1, h2]
  · have h := ingressEndpointsLoop_of_le (ingressProtocol ing)
      cfg.K8s.Ingress.RelativePath ing.Status.LoadBalancer.Ingress ing.Spec.Rules hing
    unfold getIngressEndpoints
    rw [h]
    rfl

/-- C9 witness: the preconditions hold on the scenario inputs; the
out-of-range inputs (one cluster IP with no ports; one status entry with
no rules) make the construction panic. -/
theorem C9_unvalidated_positional_indexing_witness :
    (getServiceEndpoints svcClusterScenario).isSome = true ∧
    (getIngressEndpoints cfgApp ingScenario).isSome = true ∧
    getServiceEndpoints svcPortsShort = none ∧
    getIngressEndpoints cfgNoPath ingRulesShort = none :=
  C9_unvalidated_positional_indexing svcClusterScenario cfgApp ingScenario
    (by decide) (by decide)

/-- C1 counterexample: the service `svcMixedIps` is returned ready (its
second status entry has a non-empty IP), but `getServiceEndpoints`
produces two endpoints — one of them `http://` built from the empty IP —
while only one status entry has a non-empty IP, so the produced endpoint
count does not equal the non-empty-IP entry count. -/
theorem C1_counterexample_empty_ip_entry :
    svcMixedIps.Spec.Type' = ServiceTypeLoadBalancer ∧
    serviceReady svcMixedIps = true ∧
    getServiceEndpoints svcMixedIps =
      some ["http://, (Service, Type: LoadBalancer)",
            "http://1.2.3.4, (Service, Type: LoadBalancer)"] ∧
    (svcMixedIps.Status.LoadBalancer.Ingress.filter (fun c => c.Ip != "")).length = 1 ∧
    ¬((getServiceEndpoints svcMixedIps).map List.length =
        some (svcMixedIps.Status.LoadBalancer.Ingress.filter
          (fun c => c.Ip != "")).length) := by
  decide

/-- C1 (amended): for a `LoadBalancer` Service, `getServiceEndpoints`
produces one endpoint `http://<ip>, (Service, Type: LoadBalancer)` per
`Status.LoadBalancer.Ingress` entry — including entries whose IP is
empty — so the endpoint count equals the total entry count. -/
theorem C1_loadbalancer_endpoint_per_status_entry (svc : Service)
    (h : svc.Spec.Type' = ServiceTypeLoadBalancer) :
    getServiceEndpoints svc =
      some (svc.Status.LoadBalancer.Ingress.map
        (fun resource => "http://" ++ resource.Ip ++ ", (Service, Type: LoadBalancer)")) ∧
    (getServiceEndpoints svc).map List.length =
      some svc.Status.LoadBalancer.Ingress.length := by
  have hb : (svc.Spec.Type' == ServiceTypeLoadBalancer) = true := by
    rw [h]
    decide
  constructor
  · simp [getServiceEndpoints, hb]
  · simp [getServiceEndpoints, hb]

/-- C1 witness: on `svcMixedIps` the amended statement yields two
endpoints for two status entries, one built from the empty IP. -/
theorem C1_loadbalancer_endpoint_per_status_entry_witness :
    getServiceEndpoints svcMixedIps =
      some ["http://, (Service, Type: LoadBalancer)",
            "http://1.2.3.4, (Service, Type: LoadBalancer)"] ∧
    (getServiceEndpoints svcMixedIps).map List.length = some 2 := by
  have h := C1_loadbalancer_endpoint_per_status_entry svcMixedIps rfl
  refine ⟨?_, ?_⟩
  · rw [h.1]
    decide
  · rw [h.2]
    decide

theorem ingressLoop_scheme (proto relativePath : String)
    (hp : ∀ host rel, ∃ t, urlJoinPath (proto ++ "://" ++ host) rel = proto ++ ":" ++ t) :
    ∀ (resources : List LoadBalancerIngress) (rules : List IngressRule) (eps : List String),
      ingressEndpointsLoop proto relativePath resources rules = some eps →
      ∀ ep ∈ eps, ∃ tail, ep = proto ++ ":" ++ tail := by
  intro resources
  induction resources with
  | nil =>
    intro rules eps h ep hep
    simp [ingressEndpointsLoop] at h
    subst h
    simp at hep
  | cons resource rest ih =>
    intro rules eps h ep hep
    cases rules with
    | nil => simp [ingressEndpointsLoop] at h
    | cons rule rules =>
      cases hr : ingressEndpointsLoop proto relativePath rest rules with
      | none => simp [ingressEndpointsLoop, hr] at h
      | some tailEps =>
        simp only [ingressEndpointsLoop, hr, Option.map_some', Option.some.injEq] at h
        subst h
        rcases List.mem_cons.mp hep with hhead | htail
        · subst hhead
          cases hhost : rule.Host with
          | none =>
            obtain ⟨t, ht⟩ := hp resource.Ip relativePath
            refine ⟨t ++ ", (Ingress, Type: LoadBalancer)", ?_⟩
            simp only [hhost]
            rw [ht, strAppend_assoc, strAppend_assoc]
          | some host =>
            obtain ⟨t, ht⟩ := hp host relativePath
            refine ⟨t ++ ", (Ingress, Type: LoadBalancer)", ?_⟩
            simp only [hhost]
            rw [ht, strAppend_assoc, strAppend_assoc]
        · exact ih rules tailEps hr ep htail

/-- C4: every endpoint `getIngressEndpoints` produces for an ingress
carries the scheme `https` when `Spec.Tls` is non-empty and `http` when it
is empty — one protocol decision applied uniformly to all of the ingress's
endpoints, whatever each rule is. Each endpoint starts with the scheme
prefix `https:` (resp. `http:`); the two prefixes are mutually exclusive,
and `URL.String` omits the following `//` exactly when host and combined
path are both empty, as on `ingEmptyIpEntry`, whose ready snapshot yields
the endpoint `http:, (Ingress, Type: LoadBalancer)` for its empty-IP
entry — still scheme `http`. -/
theorem C4_protocol_https_iff_tls (cfg : ServiceConfig) (ing : Ingress)
    (eps : List String) (h : getIngressEndpoints cfg ing = some eps) :
    (∀ ep ∈ eps, ∃ tail,
      ep = (if ing.Spec.Tls.length = 0 then "http" else "https") ++ ":" ++ tail) ∧
    getIngressEndpoints cfgNoPath ingEmptyIpEntry =
      some ["http:, (Ingress, Type: LoadBalancer)",
            "http://9.9.9.9, (Ingress, Type: LoadBalancer)"] := by
  refine ⟨?_, by decide⟩
  have hgo : ingressEndpointsLoop (ingressProtocol ing) cfg.K8s.Ingress.RelativePath
      ing.Status.LoadBalancer.Ingress ing.Spec.Rules = some eps := h
  by_cases htls : ing.Spec.Tls.length = 0
  · have hp : ingressProtocol ing = "http" := by simp [ingressProtocol, htls]
    rw [hp] at hgo
    intro ep hep
    obtain ⟨t, ht⟩ := ingressLoop_scheme "http" cfg.K8s.Ingress.RelativePath
      (fun host rel => ⟨String.mk (urlTail host.toList rel.toList), urlJoinPath_http host rel⟩)
      ing.Status.LoadBalancer.Ingress ing.Spec.Rules eps hgo ep hep
    rw [if_pos htls]
    exact ⟨t, ht⟩
  · have hp : ingressProtocol ing = "https" := by simp [ingressProtocol, htls]
    rw [hp] at hgo
    intro ep hep
    obtain ⟨t, ht⟩ := ingressLoop_scheme "https" cfg.K8s.Ingress.RelativePath
      (fun host rel => ⟨String.mk (urlTail host.toList rel.toList), urlJoinPath_https host rel⟩)
      ing.Status.LoadBalancer.Ingress ing.Spec.Rules eps hgo ep hep
    rw [if_neg htls]
    exact ⟨t, ht⟩

/-- C4 witness: with a non-empty TLS list the single produced endpoint
starts with the `https:` scheme prefix, and the empty-IP corner resolves
to the `http:`-schemed endpoint list. -/
theorem C4_protocol_https_iff_tls_witness :
    (∃ tail, "https://secure.example, (Ingress, Type: LoadBalancer)" =
      (if ingWithTls.Spec.Tls.length = 0 then "http" else "https") ++ ":" ++ tail) ∧
    getIngressEndpoints cfgNoPath ingEmptyIpEntry =
      some ["http:, (Ingress, Type: LoadBalancer)",
            "http://9.9.9.9, (Ingress, Type: LoadBalancer)"] := by
  have h := C4_protocol_https_iff_tls cfgNoPath ingWithTls
    ["https://secure.example, (Ingress, Type: LoadBalancer)"] (by decide)
  exact ⟨h.1 "https://secure.example, (Ingress, Type: LoadBalancer)" (by simp), h.2⟩

/-- C5: `getIngressEndpoints` pairs `Status.LoadBalancer.Ingress[i]` with
`Spec.Rules[i]`, builds the base URL from the rule's host when present and
from the entry's IP when absent, and joins the configured relative path by
URL path-joining; the spec scenario (host `example.com`, path `/app`, IP
`1.2.3.4`, no TLS) yields
`http://example.com/app, (Ingress, Type: LoadBalancer)`, and the joining
is not plain string concatenation. -/
theorem C5_ingress_base_url_and_path_join (cfg : ServiceConfig) (ing : Ingress)
    (hlen : ing.Status.LoadBalancer.Ingress.length ≤ ing.Spec.Rules.length) :
    getIngressEndpoints cfg ing =
      some (List.zipWith
        (fun (resource : LoadBalancerIngress) (rule : IngressRule) =>
          urlJoinPath (ingressProtocol ing ++ "://" ++ rule.Host.getD resource.Ip)
              cfg.K8s.Ingress.RelativePath ++ ", (Ingress, Type: LoadBalancer)")
        ing.Status.LoadBalancer.Ingress ing.Spec.Rules) ∧
    getIngressEndpoints cfgApp ingScenario =
      some ["http://example.com/app, (Ingress, Type: LoadBalancer)"] ∧
    urlJoinPath "http://example.com" "app" = "http://example.com/app" ∧
    "http://example.com" ++ "app" ≠ "http://example.com/app" := by
  refine ⟨?_, by decide, by decide, by decide⟩
  exact ingressEndpointsLoop_of_le (ingressProtocol ing) cfg.K8s.Ingress.RelativePath
    ing.Status.LoadBalancer.Ingress ing.Spec.Rules hlen

/-- C5 witness: the scenario ingress resolves to the spec's endpoint. -/
theorem C5_ingress_base_url_and_path_join_witness :
    getIngressEndpoints cfgApp ingScenario =
      some ["http://example.com/app, (Ingress, Type: LoadBalancer)"] :=
  (C5_ingress_base_url_and_path_join cfgApp ingScenario (by decide)).2.1
